import Mathlib

/-!
Shallow embedding of `analytical/templatetags/google_analytics.py`
(django-analytical, Google Analytics template tag).

The module builds a JavaScript tracking snippet from Django settings and a
per-render template context.  Settings become a `Settings` structure of
optional values (mirroring `getattr(settings, NAME, default)`), the template
context becomes a `Context` structure (mirroring `context.get(...)`), Python
dicts of strings become association lists and Python exceptions become an
`Except GAError` result.  `AnalyticalException` (the configuration error) is
one constructor; an unhandled Python `IndexError` (tuple subscript out of
range) is the other.

Helpers from `analytical/utils.py` (`get_required_setting`, `get_domain`,
`is_internal_ip`, `disable_html`) are not part of the sources and are
modelled from the spec; each such definition is marked in its doc comment.
-/

/-- A Python exception escaping the tag code: either an
`AnalyticalException` (the configuration error of `analytical.utils`) with
its message, or an unhandled `IndexError` from a tuple subscript. -/
inductive GAError where
  | analyticalException (msg : String)
  | indexError
deriving DecidableEq

/-- A Python dict with string keys and string values, as an association
list; lookups take the first matching key. -/
abbrev Dict := List (String × String)

/-- Membership test, `key in d` on a Python dict. -/
def dictContains (d : Dict) (k : String) : Bool :=
  d.any (fun p => p.1 == k)

/-- Lookup with a default, `dict(defaults, **d)[k]` when `defaults[k] = dflt`. -/
def dictGetD (d : Dict) (k : String) (dflt : String) : String :=
  match d.find? (fun p => p.1 == k) with
  | some p => p.2
  | none => dflt

/-- Constant `TRACK_SINGLE_DOMAIN = 1` of the source. -/
def TRACK_SINGLE_DOMAIN : Nat := 1

/-- Constant `TRACK_MULTIPLE_SUBDOMAINS = 2` of the source. -/
def TRACK_MULTIPLE_SUBDOMAINS : Nat := 2

/-- Constant `TRACK_MULTIPLE_DOMAINS = 3` of the source. -/
def TRACK_MULTIPLE_DOMAINS : Nat := 3

/-- Constant `SCOPE_VISITOR = 1` of the source. -/
def SCOPE_VISITOR : Nat := 1

/-- Constant `SCOPE_SESSION = 2` of the source. -/
def SCOPE_SESSION : Nat := 2

/-- Constant `SCOPE_PAGE = 3` of the source. -/
def SCOPE_PAGE : Nat := 3

/-- The Django settings the tag reads, every one optional exactly as the
source reads them through `getattr(settings, NAME, default)`.
`GOOGLE_ANALYTICS_DOMAIN` is modelled from the spec: `get_domain` of
`analytical/utils.py` is not among the sources and the spec only requires
"a domain name from context/config", so the domain available to a render is
collapsed into this single optional value. -/
structure Settings where
  GOOGLE_ANALYTICS_PROPERTY_ID : Option String := none
  GOOGLE_ANALYTICS_TRACKING_STYLE : Option Nat := none
  GOOGLE_ANALYTICS_DOMAIN : Option String := none
  GOOGLE_ANALYTICS_DISPLAY_ADVERTISING : Bool := false
  GOOGLE_ANALYTICS_SITE_SPEED : Bool := false
  GOOGLE_ANALYTICS_ANONYMIZE_IP : Bool := false
  GOOGLE_ANALYTICS_ECOMMERCE_CURRENCY_CODE : Option String := none

/-- The template-context values the tag reads through `context.get`.
Custom-variable tuples become lists of strings (every element is formatted
with `%s` anyway).  `internal_ip` is modelled from the spec: it is the
boolean outcome of the external `is_internal_ip(context, 'GOOGLE_ANALYTICS')`
lookup, "the current request is flagged internal". -/
structure Context where
  google_analytics_var1 : Option (List String) := none
  google_analytics_var2 : Option (List String) := none
  google_analytics_var3 : Option (List String) := none
  google_analytics_var4 : Option (List String) := none
  google_analytics_var5 : Option (List String) := none
  google_analytics_transaction : Option Dict := none
  google_analytics_items : List Dict := []
  google_analytics_currency_code : Option String := none
  internal_ip : Bool := false

/-- Template `DOMAIN_CODE = "_gaq.push(['_setDomainName', '%s']);"`. -/
def DOMAIN_CODE (domain : String) : String :=
  "_gaq.push([\x27_setDomainName\x27, \x27" ++ domain ++ "\x27]);"

/-- Constant `NO_ALLOW_HASH_CODE` of the source. -/
def NO_ALLOW_HASH_CODE : String := "_gaq.push([\x27_setAllowHash\x27, false]);"

/-- Constant `ALLOW_LINKER_CODE` of the source. -/
def ALLOW_LINKER_CODE : String := "_gaq.push([\x27_setAllowLinker\x27, true]);"

/-- Template `CUSTOM_VAR_CODE` of the source, filled with `% locals()`. -/
def CUSTOM_VAR_CODE (index : Nat) (name : String) (value : String) (scope : String) : String :=
  "_gaq.push([\x27_setCustomVar\x27, " ++ toString index ++ ", \x27" ++ name ++
    "\x27, \x27" ++ value ++ "\x27, " ++ scope ++ "]);"

/-- Constant `SITE_SPEED_CODE` of the source. -/
def SITE_SPEED_CODE : String := "_gaq.push([\x27_trackPageLoadTime\x27]);"

/-- Constant `ANONYMIZE_IP_CODE` of the source (with its odd space). -/
def ANONYMIZE_IP_CODE : String := "_gaq.push ([\x27_gat._anonymizeIp\x27]);"

/-- Template `TRANSACTION_CODE` of the source. -/
def TRANSACTION_CODE (transactionId affiliation total tax shipping city state country : String) :
    String :=
  "_gaq.push([\x27_addTrans\x27, \x27" ++ transactionId ++ "\x27, \x27" ++ affiliation ++
    "\x27, \x27" ++ total ++ "\x27, \x27" ++ tax ++ "\x27, \x27" ++ shipping ++ "\x27, \x27" ++
    city ++ "\x27, \x27" ++ state ++ "\x27, \x27" ++ country ++ "\x27]);"

/-- Template `ITEM_CODE` of the source. -/
def ITEM_CODE (transactionId sku name category price quantity : String) : String :=
  "_gaq.push([\x27_addItem\x27, \x27" ++ transactionId ++ "\x27, \x27" ++ sku ++ "\x27, \x27" ++
    name ++ "\x27, \x27" ++ category ++ "\x27, \x27" ++ price ++ "\x27, \x27" ++ quantity ++
    "\x27]);"

/-- Template `SET_CODE` of the source. -/
def SET_CODE (key value : String) : String :=
  "_gaq.push([\x27_set\x27, \x27" ++ key ++ "\x27, \x27" ++ value ++ "\x27]);"

/-- Constant `TRACK_TRANSACTION_CODE` of the source. -/
def TRACK_TRANSACTION_CODE : String := "_gaq.push([\x27_trackTrans\x27]);"

/-- Constant `DEFAULT_SOURCE` of the source: scheme selector and URL of the
standard `ga.js` loader. -/
def DEFAULT_SOURCE : String × String :=
  ("\x27https://ssl\x27 : \x27http://www\x27", "\x27.google-analytics.com/ga.js\x27")

/-- Constant `DISPLAY_ADVERTISING_SOURCE` of the source: scheme selector and
URL of the doubleclick `dc.js` loader. -/
def DISPLAY_ADVERTISING_SOURCE : String × String :=
  ("\x27https://\x27 : \x27http://\x27", "\x27stats.g.doubleclick.net/dc.js\x27")

/-- Template `SETUP_CODE` of the source, filled with property id, the
space-joined commands, and the chosen loader scheme selector and URL. -/
def SETUP_CODE (property_id commands source_scheme source_url : String) : String :=
  "\n    <script type=\"text/javascript\">\n\n      var _gaq = _gaq || [];\n" ++
  "      _gaq.push([\x27_setAccount\x27, \x27" ++ property_id ++ "\x27]);\n" ++
  "      _gaq.push([\x27_trackPageview\x27]);\n" ++
  "      " ++ commands ++ "\n" ++
  "      (function() \x7b\n" ++
  "        var ga = document.createElement(\x27script\x27); ga.type = \x27text/javascript\x27; ga.async = true;\n" ++
  "        ga.src = (\x27https:\x27 == document.location.protocol ? " ++ source_scheme ++
    ") + " ++ source_url ++ ";\n" ++
  "        var s = document.getElementsByTagName(\x27script\x27)[0]; s.parentNode.insertBefore(ga, s);\n" ++
  "      \x7d)();\n\n    </script>\n"

/-- Greedy `\d+` matching: split a character list into its longest
digit prefix and the rest. -/
def takeDigits : List Char → List Char × List Char
  | [] => ([], [])
  | c :: cs =>
    if c.isDigit then
      let p := takeDigits cs
      (c :: p.1, p.2)
    else ([], c :: cs)

/-- Matching `\d+-\d+$`: a nonempty greedy digit run, a dash, a nonempty
greedy digit run, then the end of the input.  `\d` cannot match `-`, so
greedy matching without backtracking is exact here. -/
def digitsDashDigits (cs : List Char) : Bool :=
  match takeDigits cs with
  | ([], _) => false
  | (_ :: _, r1) =>
    match r1 with
    | '-' :: r2 =>
      match takeDigits r2 with
      | ([], _) => false
      | (_ :: _, r3) => r3.isEmpty
    | _ => false

/-- Matching against `PROPERTY_ID_RE = re.compile(r'^UA-\d+-\d+$')` of the
source: the literal anchor `^UA-` followed by `\d+-\d+$`. -/
def PROPERTY_ID_RE_matches (s : String) : Bool :=
  match s.toList with
  | 'U' :: 'A' :: '-' :: rest => digitsDashDigits rest
  | _ => false

/-- Modelled from the spec: `get_required_setting` lives in
`analytical/utils.py`, which is not among the sources.  The spec says
construction "validates format; fails with ConfigurationError if missing or
malformed", so the setting value is fetched and checked against the given
pattern, raising `AnalyticalException` when absent or not matching. -/
def get_required_setting (value : Option String) (value_re : String → Bool)
    (invalid_msg : String) : Except GAError String :=
  match value with
  | none =>
    Except.error (GAError.analyticalException "GOOGLE_ANALYTICS_PROPERTY_ID: setting not found")
  | some v =>
    if value_re v then Except.ok v
    else Except.error (GAError.analyticalException ("GOOGLE_ANALYTICS_PROPERTY_ID: " ++ invalid_msg))

/-- The template node; construction stores the validated property id. -/
structure GoogleAnalyticsNode where
  property_id : String
deriving DecidableEq

/-- Embedding of `GoogleAnalyticsNode.__init__`: fetch and validate the
`GOOGLE_ANALYTICS_PROPERTY_ID` setting. -/
def GoogleAnalyticsNode.init (s : Settings) : Except GAError GoogleAnalyticsNode :=
  match get_required_setting s.GOOGLE_ANALYTICS_PROPERTY_ID PROPERTY_ID_RE_matches
      "must be a string looking like UA-XXXXXX-Y" with
  | Except.error e => Except.error e
  | Except.ok v => Except.ok ⟨v⟩

/-- Embedding of `_get_domain_commands`: nothing for single-domain
tracking; otherwise require a domain (else `AnalyticalException`) and emit
the set-domain and disable-hash commands, plus allow-linker for
multiple-domain tracking. -/
def getDomainCommands (s : Settings) : Except GAError (List String) :=
  let tracking_type := s.GOOGLE_ANALYTICS_TRACKING_STYLE.getD TRACK_SINGLE_DOMAIN
  if tracking_type = TRACK_SINGLE_DOMAIN then
    Except.ok []
  else
    match s.GOOGLE_ANALYTICS_DOMAIN with
    | none =>
      Except.error (GAError.analyticalException
        "tracking multiple domains with Google Analytics requires a domain name")
    | some domain =>
      Except.ok ([DOMAIN_CODE domain, NO_ALLOW_HASH_CODE] ++
        (if tracking_type = TRACK_MULTIPLE_DOMAINS then [ALLOW_LINKER_CODE] else []))

/-- One iteration of the `_get_custom_var_commands` loop: `var[0]` and
`var[1]` are unguarded Python subscripts (an `IndexError` escapes), while
`var[2]` is wrapped in `try ... except IndexError` defaulting to
`SCOPE_PAGE`. -/
def customVarCommand (index : Nat) (var : List String) : Except GAError String :=
  match var with
  | name :: value :: rest =>
    let scope := match rest with
      | [] => toString SCOPE_PAGE
      | sc :: _ => sc
    Except.ok (CUSTOM_VAR_CODE index name value scope)
  | _ => Except.error GAError.indexError

/-- The `for index, var in vars` loop of `_get_custom_var_commands`,
appending one command per pair and aborting on the first error. -/
def customVarCommandsList : List (Nat × List String) → Except GAError (List String)
  | [] => Except.ok []
  | p :: rest =>
    match customVarCommand p.1 p.2 with
    | Except.error e => Except.error e
    | Except.ok cmd =>
      match customVarCommandsList rest with
      | Except.error e => Except.error e
      | Except.ok cmds => Except.ok (cmd :: cmds)

/-- Embedding of `_get_custom_var_commands`: read
`google_analytics_var1 .. google_analytics_var5`, keep the present ones
paired with `enumerate(values, 1)` indices, and emit one command each. -/
def getCustomVarCommands (ctx : Context) : Except GAError (List String) :=
  let values := [ctx.google_analytics_var1, ctx.google_analytics_var2,
    ctx.google_analytics_var3, ctx.google_analytics_var4, ctx.google_analytics_var5]
  let vars := (values.enum.map (fun p => (p.1 + 1, p.2))).filterMap
    (fun p => match p.2 with
      | some v => some (p.1, v)
      | none => none)
  customVarCommandsList vars

/-- One iteration of the items loop of `_get_transaction_commands`: check
the required fields in order, then format `ITEM_CODE` with empty-string
defaults for `transactionId` and `category`. -/
def itemCommand (item : Dict) : Except GAError String :=
  if dictContains item "sku" = false then
    Except.error (GAError.analyticalException "item requires sku variable")
  else if dictContains item "name" = false then
    Except.error (GAError.analyticalException "item requires name variable")
  else if dictContains item "price" = false then
    Except.error (GAError.analyticalException "item requires price variable")
  else if dictContains item "quantity" = false then
    Except.error (GAError.analyticalException "item requires quantity variable")
  else
    Except.ok (ITEM_CODE (dictGetD item "transactionId" "") (dictGetD item "sku" "")
      (dictGetD item "name" "") (dictGetD item "category" "") (dictGetD item "price" "")
      (dictGetD item "quantity" ""))

/-- The `for item in items` loop of `_get_transaction_commands`, aborting
on the first missing required field. -/
def itemCommandsList : List Dict → Except GAError (List String)
  | [] => Except.ok []
  | item :: rest =>
    match itemCommand item with
    | Except.error e => Except.error e
    | Except.ok cmd =>
      match itemCommandsList rest with
      | Except.error e => Except.error e
      | Except.ok cmds => Except.ok (cmd :: cmds)

/-- Embedding of `_get_transaction_commands`.  A missing or falsy (empty)
transaction yields no commands; a truthy one must carry `transactionId`
and `total`, then the `_addTrans` command (optional fields defaulting to
the empty string), the item commands, an optional currency-code `_set`
command (context value falling back to the
`GOOGLE_ANALYTICS_ECOMMERCE_CURRENCY_CODE` setting, emitted only when
truthy) and the final `_trackTrans` command are emitted. -/
def getTransactionCommands (s : Settings) (ctx : Context) : Except GAError (List String) :=
  match ctx.google_analytics_transaction with
  | none => Except.ok []
  | some transaction =>
    if transaction.isEmpty then Except.ok []
    else if !dictContains transaction "transactionId" || !dictContains transaction "total" then
      Except.error (GAError.analyticalException
        "transaction tracking requires a total and a transactionId")
    else
      match itemCommandsList ctx.google_analytics_items with
      | Except.error e => Except.error e
      | Except.ok itemCmds =>
        let default_local_currency := s.GOOGLE_ANALYTICS_ECOMMERCE_CURRENCY_CODE
        let local_currency := match ctx.google_analytics_currency_code with
          | some v => some v
          | none => default_local_currency
        let currencyCmds := match local_currency with
          | some v => if v = "" then [] else [SET_CODE "currencyCode" v]
          | none => []
        Except.ok (TRANSACTION_CODE (dictGetD transaction "transactionId" "")
            (dictGetD transaction "affiliation" "") (dictGetD transaction "total" "")
            (dictGetD transaction "tax" "") (dictGetD transaction "shipping" "")
            (dictGetD transaction "city" "") (dictGetD transaction "state" "")
            (dictGetD transaction "country" "")
          :: itemCmds ++ currencyCmds ++ [TRACK_TRANSACTION_CODE])

/-- Embedding of `_get_other_commands`: the site-speed and anonymize-IP
commands, each gated on its boolean setting. -/
def getOtherCommands (s : Settings) : List String :=
  (if s.GOOGLE_ANALYTICS_SITE_SPEED then [SITE_SPEED_CODE] else []) ++
  (if s.GOOGLE_ANALYTICS_ANONYMIZE_IP then [ANONYMIZE_IP_CODE] else [])

/-- Modelled from the spec: `is_internal_ip` lives in
`analytical/utils.py`, which is not among the sources; the render only
consumes its boolean outcome ("the current request is flagged internal"),
carried here on the context. -/
def is_internal_ip (ctx : Context) : Bool := ctx.internal_ip

/-- Modelled from the spec: `disable_html` lives in `analytical/utils.py`,
which is not among the sources; the spec says the whole output is wrapped
in a comment as a disabled notice for the named product. -/
def disable_html (html : String) (product : String) : String :=
  "<!-- " ++ product ++ " disabled on internal IP address\n" ++ html ++ "\n-->"

/-- Embedding of `GoogleAnalyticsNode.render`: collect domain, custom
variable, other and transaction commands (in the source's order: the
other commands are gathered before the transaction commands), fill
`SETUP_CODE` with the loader chosen by the display-advertising flag, and
comment the result out for internal IPs. -/
def GoogleAnalyticsNode.render (node : GoogleAnalyticsNode) (s : Settings) (ctx : Context) :
    Except GAError String :=
  match getDomainCommands s with
  | Except.error e => Except.error e
  | Except.ok domainCmds =>
    match getCustomVarCommands ctx with
    | Except.error e => Except.error e
    | Except.ok customCmds =>
      let otherCmds := getOtherCommands s
      match getTransactionCommands s ctx with
      | Except.error e => Except.error e
      | Except.ok transCmds =>
        let commands := domainCmds ++ customCmds ++ otherCmds ++ transCmds
        let source := if s.GOOGLE_ANALYTICS_DISPLAY_ADVERTISING then DISPLAY_ADVERTISING_SOURCE
          else DEFAULT_SOURCE
        let html := SETUP_CODE node.property_id (String.intercalate " " commands)
          source.1 source.2
        Except.ok (if is_internal_ip ctx then disable_html html "Google Analytics" else html)

theorem takeDigits_all_digits : ∀ cs : List Char, ((takeDigits cs).1).all Char.isDigit = true := by
  intro cs
  induction cs with
  | nil => rfl
  | cons c cs ih =>
    unfold takeDigits
    by_cases h : c.isDigit
    · simp [h, ih]
    · simp [h]

theorem takeDigits_append : ∀ cs : List Char, (takeDigits cs).1 ++ (takeDigits cs).2 = cs := by
  intro cs
  induction cs with
  | nil => rfl
  | cons c cs ih =>
    unfold takeDigits
    by_cases h : c.isDigit
    · simp [h, ih]
    · simp [h]

theorem takeDigits_of_digits (a rest : List Char) (ha : a.all Char.isDigit = true)
    (hrest : ∀ c cs', rest = c :: cs' → c.isDigit = false) :
    takeDigits (a ++ rest) = (a, rest) := by
  induction a with
  | nil =>
    cases rest with
    | nil => rfl
    | cons c cs' =>
      simp only [List.nil_append]
      unfold takeDigits
      simp [hrest c cs' rfl]
  | cons x xs ih =>
    simp only [List.all_cons, Bool.and_eq_true] at ha
    simp only [List.cons_append]
    unfold takeDigits
    simp [ha.1, ih ha.2]

theorem digitsDashDigits_iff (cs : List Char) :
    digitsDashDigits cs = true ↔ ∃ a b : List Char, a ≠ [] ∧ b ≠ [] ∧
      a.all Char.isDigit = true ∧ b.all Char.isDigit = true ∧ cs = a ++ '-' :: b := by
  constructor
  · intro h
    unfold digitsDashDigits at h
    split at h
    · exact absurd h (by simp)
    · rename_i a0 atl r1 heq1
      split at h
      · rename_i r2
        split at h
        · exact absurd h (by simp)
        · rename_i b0 btl r3 heq3
          simp only [List.isEmpty_iff] at h
          refine ⟨a0 :: atl, b0 :: btl, by simp, by simp, ?_, ?_, ?_⟩
          · have hd := takeDigits_all_digits cs
            rw [heq1] at hd
            exact hd
          · have hd := takeDigits_all_digits r2
            rw [heq3] at hd
            exact hd
          · have hap := takeDigits_append cs
            rw [heq1] at hap
            have hap2 := takeDigits_append r2
            rw [heq3] at hap2
            rw [h] at hap2
            simp only [List.append_nil] at hap2
            simp only at hap
            rw [← hap, ← hap2]
      · exact absurd h (by simp)
  · rintro ⟨a, b, ha, hb, hda, hdb, heq⟩
    subst heq
    have h1 : takeDigits (a ++ '-' :: b) = (a, '-' :: b) := by
      apply takeDigits_of_digits a _ hda
      intro c cs' hc
      cases hc
      decide
    have h2 : takeDigits b = (b, []) := by
      have hh := takeDigits_of_digits b [] hdb (by intro c cs' hc; cases hc)
      simpa using hh
    unfold digitsDashDigits
    rw [h1]
    cases a with
    | nil => exact absurd rfl ha
    | cons a0 atl =>
      simp only
      rw [h2]
      cases b with
      | nil => exact absurd rfl hb
      | cons b0 btl => simp

def specPropertyIdPattern (s : String) : Prop :=
  ∃ a b : List Char, a ≠ [] ∧ b ≠ [] ∧ a.all Char.isDigit = true ∧ b.all Char.isDigit = true ∧
    s.toList = 'U' :: 'A' :: '-' :: (a ++ '-' :: b)

theorem PROPERTY_ID_RE_matches_iff (s : String) :
    PROPERTY_ID_RE_matches s = true ↔ specPropertyIdPattern s := by
  unfold PROPERTY_ID_RE_matches specPropertyIdPattern
  constructor
  · intro h
    split at h
    next rest heq =>
      obtain ⟨a, b, ha, hb, hda, hdb, hcs⟩ := (digitsDashDigits_iff rest).mp h
      exact ⟨a, b, ha, hb, hda, hdb, by rw [heq, hcs]⟩
    next => exact absurd h (by simp)
  · rintro ⟨a, b, ha, hb, hda, hdb, heq⟩
    rw [heq]
    simp only
    exact (digitsDashDigits_iff _).mpr ⟨a, b, ha, hb, hda, hdb, rfl⟩

/-- C1: Constructing the node (`GoogleAnalyticsNode.__init__`) fails with a
`ConfigurationError` (`AnalyticalException`) whenever the
`GOOGLE_ANALYTICS_PROPERTY_ID` setting is missing or does not match the
pattern `UA-<digits>-<digits>`, and succeeds for every string matching that
pattern. -/
theorem ga_property_id_validation (s : Settings) :
    (s.GOOGLE_ANALYTICS_PROPERTY_ID = none →
      ∃ msg, GoogleAnalyticsNode.init s = Except.error (GAError.analyticalException msg)) ∧
    (∀ v, s.GOOGLE_ANALYTICS_PROPERTY_ID = some v → ¬ specPropertyIdPattern v →
      ∃ msg, GoogleAnalyticsNode.init s = Except.error (GAError.analyticalException msg)) ∧
    (∀ v, s.GOOGLE_ANALYTICS_PROPERTY_ID = some v → specPropertyIdPattern v →
      GoogleAnalyticsNode.init s = Except.ok ⟨v⟩) := by
  refine ⟨?_, ?_, ?_⟩
  · intro h
    refine ⟨"GOOGLE_ANALYTICS_PROPERTY_ID: setting not found", ?_⟩
    unfold GoogleAnalyticsNode.init get_required_setting
    rw [h]
  · intro v hv hpat
    have hm : PROPERTY_ID_RE_matches v = false := by
      cases hb : PROPERTY_ID_RE_matches v
      · rfl
      · exact absurd ((PROPERTY_ID_RE_matches_iff v).mp hb) hpat
    refine ⟨"GOOGLE_ANALYTICS_PROPERTY_ID: must be a string looking like UA-XXXXXX-Y", ?_⟩
    unfold GoogleAnalyticsNode.init get_required_setting
    rw [hv]
    simp [hm]
  · intro v hv hpat
    have hm : PROPERTY_ID_RE_matches v = true := (PROPERTY_ID_RE_matches_iff v).mpr hpat
    unfold GoogleAnalyticsNode.init get_required_setting
    rw [hv]
    simp [hm]

/-- Witness for C1: the valid property id `UA-123456-7` constructs. -/
theorem ga_property_id_validation_witness :
    GoogleAnalyticsNode.init { GOOGLE_ANALYTICS_PROPERTY_ID := some "UA-123456-7" } =
      Except.ok ⟨"UA-123456-7"⟩ :=
  (ga_property_id_validation { GOOGLE_ANALYTICS_PROPERTY_ID := some "UA-123456-7" }).2.2
    "UA-123456-7" rfl
    ⟨[ '1', '2', '3', '4', '5', '6' ], [ '7' ],
      by decide, by decide, by decide, by decide, by decide⟩

/-- The custom-variable context of the source's `test_custom_vars` test:
slots 1, 2, 4 and 5 present, slot 1 without an explicit scope. -/
def exCustomVarsCtx : Context :=
  { google_analytics_var1 := some ["test1", "foo"]
    google_analytics_var2 := some ["test2", "bar", "1"]
    google_analytics_var4 := some ["test4", "baz", "2"]
    google_analytics_var5 := some ["test5", "qux", "3"] }

/-- The present custom-variable slots in ascending slot order, written after
the spec: "for slots 1..5 in order, emit one command per present slot". -/
def presentCustomVarSlots (ctx : Context) : List (Nat × List String) :=
  [(1, ctx.google_analytics_var1), (2, ctx.google_analytics_var2),
   (3, ctx.google_analytics_var3), (4, ctx.google_analytics_var4),
   (5, ctx.google_analytics_var5)].filterMap
    (fun p => match p.2 with
      | some v => some (p.1, v)
      | none => none)

theorem customVarCommandsList_ok (l : List (Nat × List String))
    (h : ∀ p ∈ l, 2 ≤ p.2.length) :
    customVarCommandsList l = Except.ok (l.map (fun p =>
      CUSTOM_VAR_CODE p.1 (p.2.getD 0 "") (p.2.getD 1 "") (p.2.getD 2 (toString SCOPE_PAGE)))) := by
  induction l with
  | nil => rfl
  | cons p rest ih =>
    have hp := h p (List.mem_cons_self p rest)
    have hcmd : customVarCommand p.1 p.2 = Except.ok
        (CUSTOM_VAR_CODE p.1 (p.2.getD 0 "") (p.2.getD 1 "") (p.2.getD 2 (toString SCOPE_PAGE))) := by
      cases hv : p.2 with
      | nil => rw [hv] at hp; simp at hp
      | cons n tl =>
        cases htl : tl with
        | nil => rw [hv, htl] at hp; simp at hp
        | cons v r =>
          subst htl
          unfold customVarCommand
          cases r <;> simp [hv]
    unfold customVarCommandsList
    rw [hcmd, ih (fun q hq => h q (List.mem_cons_of_mem p hq))]
    rfl

/-- C4: For every render, exactly one custom-variable command is emitted per
slot 1..5 whose context value `google_analytics_var<i>` is present, in
ascending slot order, each carrying the slot number as its 1-based index
together with the variable name and value, and carrying scope 3 (Page) when
the tuple has no third element; absent slots emit nothing and do not shift
the indices of later slots. -/
theorem ga_custom_var_emission (ctx : Context)
    (h : ∀ p ∈ presentCustomVarSlots ctx, 2 ≤ p.2.length) :
    getCustomVarCommands ctx = Except.ok ((presentCustomVarSlots ctx).map (fun p =>
      CUSTOM_VAR_CODE p.1 (p.2.getD 0 "") (p.2.getD 1 "") (p.2.getD 2 (toString SCOPE_PAGE)))) := by
  have heq : getCustomVarCommands ctx = customVarCommandsList (presentCustomVarSlots ctx) := rfl
  rw [heq, customVarCommandsList_ok _ h]

/-- Witness for C4: slots 1, 2, 4 and 5 present (slot 1 with a defaulted
scope) yield four commands in ascending slot order with their slot numbers
as indices. -/
theorem ga_custom_var_emission_witness :
    getCustomVarCommands exCustomVarsCtx = Except.ok
      [CUSTOM_VAR_CODE 1 "test1" "foo" "3", CUSTOM_VAR_CODE 2 "test2" "bar" "1",
       CUSTOM_VAR_CODE 4 "test4" "baz" "2", CUSTOM_VAR_CODE 5 "test5" "qux" "3"] :=
  ga_custom_var_emission exCustomVarsCtx (by decide)

/-- C10: In custom-variable handling only the scope lookup (third element)
is guarded; a present slot value with fewer than two elements makes the
render fail with an unhandled out-of-bounds (`IndexError`), not a
`ConfigurationError`. -/
theorem ga_custom_var_short_tuple_index_error :
    GoogleAnalyticsNode.render ⟨"UA-123456-7"⟩ {}
        { google_analytics_var1 := some ["test1"] } =
      Except.error GAError.indexError := rfl

/-- C3: No domain commands for single-domain tracking; for
multiple-subdomain or multiple-domain tracking with a domain available, the
set-domain and disable-hash commands are emitted, with allow-linker exactly
for multiple-domain tracking; without a domain, render fails with a
`ConfigurationError`. -/
theorem ga_domain_command_emission (node : GoogleAnalyticsNode) (s : Settings) (ctx : Context) :
    (s.GOOGLE_ANALYTICS_TRACKING_STYLE.getD TRACK_SINGLE_DOMAIN = TRACK_SINGLE_DOMAIN →
      getDomainCommands s = Except.ok []) ∧
    (∀ d, s.GOOGLE_ANALYTICS_DOMAIN = some d →
      (s.GOOGLE_ANALYTICS_TRACKING_STYLE.getD TRACK_SINGLE_DOMAIN = TRACK_MULTIPLE_SUBDOMAINS →
        getDomainCommands s = Except.ok [DOMAIN_CODE d, NO_ALLOW_HASH_CODE]) ∧
      (s.GOOGLE_ANALYTICS_TRACKING_STYLE.getD TRACK_SINGLE_DOMAIN = TRACK_MULTIPLE_DOMAINS →
        getDomainCommands s = Except.ok [DOMAIN_CODE d, NO_ALLOW_HASH_CODE, ALLOW_LINKER_CODE])) ∧
    (s.GOOGLE_ANALYTICS_TRACKING_STYLE.getD TRACK_SINGLE_DOMAIN ≠ TRACK_SINGLE_DOMAIN →
      s.GOOGLE_ANALYTICS_DOMAIN = none →
      GoogleAnalyticsNode.render node s ctx = Except.error (GAError.analyticalException
        "tracking multiple domains with Google Analytics requires a domain name")) := by
  refine ⟨?_, ?_, ?_⟩
  · intro h
    unfold getDomainCommands
    simp [h]
  · intro d hd
    constructor
    · intro h
      unfold getDomainCommands
      rw [h, hd]
      simp [TRACK_MULTIPLE_SUBDOMAINS, TRACK_SINGLE_DOMAIN, TRACK_MULTIPLE_DOMAINS]
    · intro h
      unfold getDomainCommands
      rw [h, hd]
      simp [TRACK_MULTIPLE_DOMAINS, TRACK_SINGLE_DOMAIN]
  · intro h hd
    have hdc : getDomainCommands s = Except.error (GAError.analyticalException
        "tracking multiple domains with Google Analytics requires a domain name") := by
      unfold getDomainCommands
      rw [if_neg h, hd]
    unfold GoogleAnalyticsNode.render
    rw [hdc]

/-- The settings of the source's `test_track_multiple_domains` test:
multiple-domain tracking with domain `example.com`. -/
def exMultiDomainSettings : Settings :=
  { GOOGLE_ANALYTICS_TRACKING_STYLE := some 3
    GOOGLE_ANALYTICS_DOMAIN := some "example.com" }

/-- Witness for C3: multiple-domain tracking with domain `example.com`
emits the set-domain, disable-hash and allow-linker commands. -/
theorem ga_domain_command_emission_witness :
    getDomainCommands exMultiDomainSettings =
      Except.ok [DOMAIN_CODE "example.com", NO_ALLOW_HASH_CODE, ALLOW_LINKER_CODE] :=
  ((ga_domain_command_emission ⟨"UA-123456-7"⟩ exMultiDomainSettings
      {}).2.1 "example.com" rfl).2 (by decide)

/-- The required line-item fields, in the order the source checks them. -/
def requiredItemFields : List String := ["sku", "name", "price", "quantity"]

theorem itemCommand_ok_of_wf (item : Dict)
    (h : ∀ f ∈ requiredItemFields, dictContains item f = true) :
    itemCommand item = Except.ok (ITEM_CODE (dictGetD item "transactionId" "")
      (dictGetD item "sku" "") (dictGetD item "name" "") (dictGetD item "category" "")
      (dictGetD item "price" "") (dictGetD item "quantity" "")) := by
  have h1 := h "sku" (by simp [requiredItemFields])
  have h2 := h "name" (by simp [requiredItemFields])
  have h3 := h "price" (by simp [requiredItemFields])
  have h4 := h "quantity" (by simp [requiredItemFields])
  unfold itemCommand
  simp [h1, h2, h3, h4]

theorem itemCommand_error_shape (item : Dict) (e : GAError)
    (h : itemCommand item = Except.error e) :
    ∃ f ∈ requiredItemFields,
      e = GAError.analyticalException ("item requires " ++ f ++ " variable") ∧
      dictContains item f = false := by
  unfold itemCommand at h
  split_ifs at h with h1 h2 h3 h4
  · exact ⟨"sku", by simp [requiredItemFields],
      by injection h with h; exact h.symm, h1⟩
  · exact ⟨"name", by simp [requiredItemFields],
      by injection h with h; exact h.symm, h2⟩
  · exact ⟨"price", by simp [requiredItemFields],
      by injection h with h; exact h.symm, h3⟩
  · exact ⟨"quantity", by simp [requiredItemFields],
      by injection h with h; exact h.symm, h4⟩

theorem itemCommand_wf_of_ok (item : Dict) (c : String)
    (h : itemCommand item = Except.ok c) :
    ∀ f ∈ requiredItemFields, dictContains item f = true := by
  unfold itemCommand at h
  split_ifs at h with h1 h2 h3 h4
  · intro f hf
    simp only [requiredItemFields, List.mem_cons, List.mem_singleton] at hf
    rcases hf with rfl | rfl | rfl | rfl | hf
    · cases hb : dictContains item "sku"
      · exact absurd hb h1
      · rfl
    · cases hb : dictContains item "name"
      · exact absurd hb h2
      · rfl
    · cases hb : dictContains item "price"
      · exact absurd hb h3
      · rfl
    · cases hb : dictContains item "quantity"
      · exact absurd hb h4
      · rfl
    · simp at hf

theorem itemCommandsList_ok_of_wf (items : List Dict)
    (h : ∀ item ∈ items, ∀ f ∈ requiredItemFields, dictContains item f = true) :
    itemCommandsList items = Except.ok (items.map (fun item =>
      ITEM_CODE (dictGetD item "transactionId" "") (dictGetD item "sku" "")
        (dictGetD item "name" "") (dictGetD item "category" "") (dictGetD item "price" "")
        (dictGetD item "quantity" ""))) := by
  induction items with
  | nil => rfl
  | cons item rest ih =>
    unfold itemCommandsList
    rw [itemCommand_ok_of_wf item (h item (List.mem_cons_self item rest)),
        ih (fun q hq f hf => h q (List.mem_cons_of_mem item hq) f hf)]
    rfl

theorem itemCommandsList_error_mem (items : List Dict) (e : GAError)
    (h : itemCommandsList items = Except.error e) :
    ∃ item ∈ items, itemCommand item = Except.error e := by
  induction items with
  | nil => exact absurd h (by simp [itemCommandsList])
  | cons item rest ih =>
    unfold itemCommandsList at h
    cases hc : itemCommand item with
    | error e2 =>
      rw [hc] at h
      injection h with h
      exact ⟨item, List.mem_cons_self item rest, by rw [hc, h]⟩
    | ok cmd =>
      rw [hc] at h
      cases hr : itemCommandsList rest with
      | error e3 =>
        rw [hr] at h
        injection h with h
        obtain ⟨q, hq, he⟩ := ih (by rw [hr, h])
        exact ⟨q, List.mem_cons_of_mem item hq, he⟩
      | ok cmds =>
        rw [hr] at h
        exact absurd h (by simp)

theorem itemCommandsList_wf_of_ok (items : List Dict) (cmds : List String)
    (h : itemCommandsList items = Except.ok cmds) :
    ∀ item ∈ items, ∀ f ∈ requiredItemFields, dictContains item f = true := by
  induction items generalizing cmds with
  | nil => simp
  | cons item rest ih =>
    unfold itemCommandsList at h
    cases hc : itemCommand item with
    | error e =>
      rw [hc] at h
      exact absurd h (by simp)
    | ok cmd =>
      rw [hc] at h
      cases hr : itemCommandsList rest with
      | error e =>
        rw [hr] at h
        exact absurd h (by simp)
      | ok cmds2 =>
        intro q hq f hf
        rcases List.mem_cons.mp hq with rfl | hq2
        · exact itemCommand_wf_of_ok q cmd hc f hf
        · exact ih cmds2 hr q hq2 f hf

theorem getTransactionCommands_ok_eq (s : Settings) (ctx : Context) (t : Dict)
    (ht : ctx.google_analytics_transaction = some t) (hne : t ≠ [])
    (hid : dictContains t "transactionId" = true) (htot : dictContains t "total" = true)
    (hitems : ∀ item ∈ ctx.google_analytics_items, ∀ f ∈ requiredItemFields,
      dictContains item f = true) :
    getTransactionCommands s ctx = Except.ok
      (TRANSACTION_CODE (dictGetD t "transactionId" "") (dictGetD t "affiliation" "")
          (dictGetD t "total" "") (dictGetD t "tax" "") (dictGetD t "shipping" "")
          (dictGetD t "city" "") (dictGetD t "state" "") (dictGetD t "country" "")
        :: ctx.google_analytics_items.map (fun item =>
             ITEM_CODE (dictGetD item "transactionId" "") (dictGetD item "sku" "")
               (dictGetD item "name" "") (dictGetD item "category" "")
               (dictGetD item "price" "") (dictGetD item "quantity" ""))
        ++ ((match (match ctx.google_analytics_currency_code with
                    | some v => some v
                    | none => s.GOOGLE_ANALYTICS_ECOMMERCE_CURRENCY_CODE) with
             | some v => if v = "" then [] else [SET_CODE "currencyCode" v]
             | none => [])
        ++ [TRACK_TRANSACTION_CODE])) := by
  have hie : t.isEmpty = false := by
    cases t with
    | nil => exact absurd rfl hne
    | cons a b => rfl
  unfold getTransactionCommands
  rw [ht]
  simp only [hie, hid, htot, Bool.not_true, Bool.or_self, Bool.false_eq_true, if_false,
    itemCommandsList_ok_of_wf ctx.google_analytics_items hitems]
  simp [List.append_assoc]

/-- C5: For every render with a valid transaction present, the transaction
commands are: one `_addTrans` command with absent optional fields
(affiliation, tax, shipping, city, state, country) filled with empty
strings, then one `_addItem` command per line item in list order with
absent optional fields (transactionId, category) filled with empty
strings, then one currency-code `_set` command if a currency code is
configured or provided, then a final `_trackTrans` command. -/
theorem ga_transaction_sequence (s : Settings) (ctx : Context) (t : Dict)
    (ht : ctx.google_analytics_transaction = some t) (hne : t ≠ [])
    (hid : dictContains t "transactionId" = true) (htot : dictContains t "total" = true)
    (hitems : ∀ item ∈ ctx.google_analytics_items, ∀ f ∈ requiredItemFields,
      dictContains item f = true) :
    getTransactionCommands s ctx = Except.ok
      (TRANSACTION_CODE (dictGetD t "transactionId" "") (dictGetD t "affiliation" "")
          (dictGetD t "total" "") (dictGetD t "tax" "") (dictGetD t "shipping" "")
          (dictGetD t "city" "") (dictGetD t "state" "") (dictGetD t "country" "")
        :: ctx.google_analytics_items.map (fun item =>
             ITEM_CODE (dictGetD item "transactionId" "") (dictGetD item "sku" "")
               (dictGetD item "name" "") (dictGetD item "category" "")
               (dictGetD item "price" "") (dictGetD item "quantity" ""))
        ++ ((match (match ctx.google_analytics_currency_code with
                    | some v => some v
                    | none => s.GOOGLE_ANALYTICS_ECOMMERCE_CURRENCY_CODE) with
             | some v => if v = "" then [] else [SET_CODE "currencyCode" v]
             | none => [])
        ++ [TRACK_TRANSACTION_CODE])) :=
  getTransactionCommands_ok_eq s ctx t ht hne hid htot hitems

/-- The transaction of the source's `test_transaction` test, with every
field present, plus one complete line item. -/
def exTransaction : Dict :=
  [("transactionId", "1234"), ("affiliation", "affilaite"), ("total", "12.50"),
   ("tax", "0.99"), ("shipping", "1.99"), ("city", "Jersey City"), ("state", "NJ"),
   ("country", "USA")]

/-- A complete line item (every required and optional field present). -/
def exItem : Dict :=
  [("transactionId", "1234"), ("sku", "THNG001"), ("name", "thing"),
   ("category", "things"), ("price", "50.00"), ("quantity", "1")]

/-- A context carrying `exTransaction` and `exItem`. -/
def exTransactionCtx : Context :=
  { google_analytics_transaction := some exTransaction
    google_analytics_items := [exItem] }

/-- Witness for C5: the full transaction plus one item emits the exact
`_addTrans`, `_addItem` and `_trackTrans` sequence (no currency command:
none is configured or provided). -/
theorem ga_transaction_sequence_witness :
    getTransactionCommands {} exTransactionCtx = Except.ok
      [TRANSACTION_CODE "1234" "affilaite" "12.50" "0.99" "1.99" "Jersey City" "NJ" "USA",
       ITEM_CODE "1234" "THNG001" "thing" "things" "50.00" "1",
       TRACK_TRANSACTION_CODE] :=
  ga_transaction_sequence {} exTransactionCtx exTransaction rfl (by decide) (by decide)
    (by decide) (by decide)

/-- C9: For every render with a valid transaction present, the context value
`google_analytics_currency_code` takes precedence over the
`GOOGLE_ANALYTICS_ECOMMERCE_CURRENCY_CODE` setting (the result does not
depend on the setting when the context provides a value), and the
currency-code `_set` command segment is emitted exactly when the resulting
value is truthy (a configured empty-string currency code emits nothing). -/
theorem ga_currency_code_selection (s : Settings) (ctx : Context) (t : Dict) (d : Option String)
    (ht : ctx.google_analytics_transaction = some t) (hne : t ≠ [])
    (hid : dictContains t "transactionId" = true) (htot : dictContains t "total" = true)
    (hitems : ∀ item ∈ ctx.google_analytics_items, ∀ f ∈ requiredItemFields,
      dictContains item f = true) :
    (∀ c, ctx.google_analytics_currency_code = some c →
      getTransactionCommands { s with GOOGLE_ANALYTICS_ECOMMERCE_CURRENCY_CODE := d } ctx =
        getTransactionCommands s ctx) ∧
    (∃ pre, getTransactionCommands s ctx = Except.ok (pre ++
      ((match (match ctx.google_analytics_currency_code with
               | some v => some v
               | none => s.GOOGLE_ANALYTICS_ECOMMERCE_CURRENCY_CODE) with
        | some v => if v = "" then [] else [SET_CODE "currencyCode" v]
        | none => [])
      ++ [TRACK_TRANSACTION_CODE]))) := by
  constructor
  · intro c hc
    rw [getTransactionCommands_ok_eq { s with GOOGLE_ANALYTICS_ECOMMERCE_CURRENCY_CODE := d }
          ctx t ht hne hid htot hitems,
        getTransactionCommands_ok_eq s ctx t ht hne hid htot hitems]
    rw [hc]
  · exact ⟨_, getTransactionCommands_ok_eq s ctx t ht hne hid htot hitems⟩

/-- A context carrying a truthy transaction and a currency-code override. -/
def exCurrencyCtx : Context :=
  { google_analytics_transaction := some [("transactionId", "1"), ("total", "2")]
    google_analytics_currency_code := some "EUR" }

/-- Witness for C9: with the context providing `EUR`, a configured `USD`
setting does not change the emitted commands. -/
theorem ga_currency_code_selection_witness :
    getTransactionCommands { GOOGLE_ANALYTICS_ECOMMERCE_CURRENCY_CODE := some "USD" }
        exCurrencyCtx =
      getTransactionCommands {} exCurrencyCtx :=
  (ga_currency_code_selection {} exCurrencyCtx [("transactionId", "1"), ("total", "2")]
      (some "USD") rfl (by decide) (by decide) (by decide) (by decide)).1 "EUR" rfl

/-- C8: For every render in which `google_analytics_transaction` is absent
or falsy (including an empty dict), the line items are ignored entirely:
no commands are emitted and no error is raised, even when items lack
required fields. -/
theorem ga_transaction_absent_or_falsy (s : Settings) (ctx : Context)
    (h : ctx.google_analytics_transaction = none ∨
      ctx.google_analytics_transaction = some []) :
    getTransactionCommands s ctx = Except.ok [] := by
  rcases h with h | h
  · unfold getTransactionCommands
    rw [h]
  · unfold getTransactionCommands
    rw [h]
    rfl

/-- Witness for C8: an empty transaction dict with a malformed item (no
required fields at all) emits nothing and raises nothing. -/
theorem ga_transaction_absent_or_falsy_witness :
    getTransactionCommands {}
        { google_analytics_transaction := some [], google_analytics_items := [[("x", "y")]] } =
      Except.ok [] :=
  ga_transaction_absent_or_falsy {}
    { google_analytics_transaction := some [], google_analytics_items := [[("x", "y")]] }
    (Or.inr rfl)

/-- C2: For every render with a truthy transaction present, a
`ConfigurationError` is raised when the transaction lacks `transactionId`
or `total`; with both present, a `ConfigurationError` naming the missing
field is raised exactly when some line item lacks one of `sku`, `name`,
`price`, `quantity`; and no other transaction-related error is raised. -/
theorem ga_transaction_error_handling (s : Settings) (ctx : Context) (t : Dict)
    (ht : ctx.google_analytics_transaction = some t) (hne : t ≠ []) :
    (¬ (dictContains t "transactionId" = true ∧ dictContains t "total" = true) →
      getTransactionCommands s ctx = Except.error (GAError.analyticalException
        "transaction tracking requires a total and a transactionId")) ∧
    (dictContains t "transactionId" = true → dictContains t "total" = true →
      ((∃ item ∈ ctx.google_analytics_items, ∃ f ∈ requiredItemFields,
          dictContains item f = false) →
        ∃ e, getTransactionCommands s ctx = Except.error e) ∧
      (∀ e, getTransactionCommands s ctx = Except.error e →
        ∃ f ∈ requiredItemFields,
          e = GAError.analyticalException ("item requires " ++ f ++ " variable") ∧
          ∃ item ∈ ctx.google_analytics_items, dictContains item f = false)) := by
  have hie : t.isEmpty = false := by
    cases t with
    | nil => exact absurd rfl hne
    | cons a b => rfl
  constructor
  · intro hmiss
    cases ha : dictContains t "transactionId" with
    | true =>
      cases hb : dictContains t "total" with
      | true => exact absurd ⟨ha, hb⟩ hmiss
      | false =>
        unfold getTransactionCommands
        rw [ht]
        simp [hie, ha, hb]
    | false =>
      unfold getTransactionCommands
      rw [ht]
      simp [hie, ha]
  · intro hid htot
    constructor
    · rintro ⟨item, hitem, f, hf, hbad⟩
      cases hic : itemCommandsList ctx.google_analytics_items with
      | error e =>
        refine ⟨e, ?_⟩
        unfold getTransactionCommands
        rw [ht]
        simp only [hie, hid, htot, Bool.not_true, Bool.or_self, Bool.false_eq_true, if_false,
          hic]
      | ok cmds =>
        have hwf := itemCommandsList_wf_of_ok ctx.google_analytics_items cmds hic
        exact absurd (hwf item hitem f hf) (by rw [hbad]; exact Bool.false_ne_true)
    · intro e he
      unfold getTransactionCommands at he
      rw [ht] at he
      simp only [hie, hid, htot, Bool.not_true, Bool.or_self, Bool.false_eq_true, if_false]
        at he
      cases hic : itemCommandsList ctx.google_analytics_items with
      | error e2 =>
        rw [hic] at he
        injection he with he
        obtain ⟨item, hmem, herr⟩ := itemCommandsList_error_mem
          ctx.google_analytics_items e (by rw [hic, he])
        obtain ⟨f, hf, hshape, hmiss⟩ := itemCommand_error_shape item e herr
        exact ⟨f, hf, hshape, item, hmem, hmiss⟩
      | ok cmds =>
        rw [hic] at he
        exact absurd he (by simp)

/-- Witness for C2: a truthy transaction missing `total` fails with the
exact configuration error. -/
theorem ga_transaction_error_handling_witness :
    getTransactionCommands {}
        { google_analytics_transaction := some [("transactionId", "1")] } =
      Except.error (GAError.analyticalException
        "transaction tracking requires a total and a transactionId") :=
  (ga_transaction_error_handling {}
    { google_analytics_transaction := some [("transactionId", "1")] }
    [("transactionId", "1")] rfl (by decide)).1 (by decide)

/-- C6 (amended): For every non-error render, the output is `SETUP_CODE`
(account-set command, then pageview-track command, then all step commands
space-joined, then the asynchronous loader) where the step commands are, in
the source's order, the domain commands, then the custom-variable commands,
then the site-speed/anonymize-IP commands, then the transaction commands,
and the loader source pair is the display-advertising one exactly when the
advertising flag is set; the whole is comment-wrapped for internal IPs. -/
theorem ga_render_assembly (node : GoogleAnalyticsNode) (s : Settings) (ctx : Context)
    (domainCmds customCmds transCmds : List String)
    (hd : getDomainCommands s = Except.ok domainCmds)
    (hc : getCustomVarCommands ctx = Except.ok customCmds)
    (htr : getTransactionCommands s ctx = Except.ok transCmds) :
    GoogleAnalyticsNode.render node s ctx = Except.ok
      ((fun html => if is_internal_ip ctx then disable_html html "Google Analytics" else html)
        (SETUP_CODE node.property_id
          (String.intercalate " " (domainCmds ++ customCmds ++ getOtherCommands s ++ transCmds))
          (if s.GOOGLE_ANALYTICS_DISPLAY_ADVERTISING then DISPLAY_ADVERTISING_SOURCE
            else DEFAULT_SOURCE).1
          (if s.GOOGLE_ANALYTICS_DISPLAY_ADVERTISING then DISPLAY_ADVERTISING_SOURCE
            else DEFAULT_SOURCE).2)) := by
  unfold GoogleAnalyticsNode.render
  rw [hd, hc, htr]

/-- The settings of the C6 counterexample: site-speed command enabled. -/
def exSiteSpeedSettings : Settings := { GOOGLE_ANALYTICS_SITE_SPEED := true }

/-- The context of the C6 counterexample: a minimal truthy transaction. -/
def exMinimalTransactionCtx : Context :=
  { google_analytics_transaction := some [("transactionId", "1"), ("total", "2")] }

set_option maxRecDepth 100000 in
/-- Counterexample for C6: with the site-speed flag set and a transaction
present, the output does not contain the step commands space-joined in the
claimed order (transaction commands before the site-speed command); it
contains them joined in the source's order, site-speed command first. -/
theorem ga_render_step_order_counterexample :
    ∃ html, GoogleAnalyticsNode.render ⟨"UA-123456-7"⟩ exSiteSpeedSettings
        exMinimalTransactionCtx = Except.ok html ∧
      ¬ ((String.intercalate " " ([] ++ [] ++
            [TRANSACTION_CODE "1" "" "2" "" "" "" "" "", TRACK_TRANSACTION_CODE] ++
            [SITE_SPEED_CODE])).toList <:+: html.toList) ∧
      ((String.intercalate " " ([] ++ [] ++ [SITE_SPEED_CODE] ++
            [TRANSACTION_CODE "1" "" "2" "" "" "" "" "", TRACK_TRANSACTION_CODE])).toList <:+:
          html.toList) :=
  ⟨_, rfl, by decide, by decide⟩

/-- Witness for C6: display advertising plus site speed plus a transaction
assemble into the exact snippet, loader URLs from the advertising pair. -/
theorem ga_render_assembly_witness :
    GoogleAnalyticsNode.render ⟨"UA-123456-7"⟩
        { GOOGLE_ANALYTICS_SITE_SPEED := true, GOOGLE_ANALYTICS_DISPLAY_ADVERTISING := true }
        exMinimalTransactionCtx =
      Except.ok (SETUP_CODE "UA-123456-7" (String.intercalate " "
          [SITE_SPEED_CODE, TRANSACTION_CODE "1" "" "2" "" "" "" "" "", TRACK_TRANSACTION_CODE])
        DISPLAY_ADVERTISING_SOURCE.1 DISPLAY_ADVERTISING_SOURCE.2) :=
  ga_render_assembly ⟨"UA-123456-7"⟩
    { GOOGLE_ANALYTICS_SITE_SPEED := true, GOOGLE_ANALYTICS_DISPLAY_ADVERTISING := true }
    exMinimalTransactionCtx [] []
    [TRANSACTION_CODE "1" "" "2" "" "" "" "" "", TRACK_TRANSACTION_CODE] rfl rfl rfl

/-- C7: For every render, the output is the live snippet of the same
settings and context when the request is not flagged internal, and that
same snippet wrapped in the disabled-notice comment when it is. -/
theorem ga_internal_ip_wrapping (node : GoogleAnalyticsNode) (s : Settings) (ctx : Context) :
    GoogleAnalyticsNode.render node s ctx =
      (GoogleAnalyticsNode.render node s { ctx with internal_ip := false }).map
        (fun html => if ctx.internal_ip then disable_html html "Google Analytics" else html) := by
  obtain ⟨v1, v2, v3, v4, v5, tr, it, cc, ip⟩ := ctx
  have e1 : getCustomVarCommands ⟨v1, v2, v3, v4, v5, tr, it, cc, false⟩ =
      getCustomVarCommands ⟨v1, v2, v3, v4, v5, tr, it, cc, ip⟩ := rfl
  have e2 : getTransactionCommands s ⟨v1, v2, v3, v4, v5, tr, it, cc, false⟩ =
      getTransactionCommands s ⟨v1, v2, v3, v4, v5, tr, it, cc, ip⟩ := rfl
  unfold GoogleAnalyticsNode.render
  rw [e1, e2]
  cases getDomainCommands s with
  | error e => rfl
  | ok domainCmds =>
    cases getCustomVarCommands ⟨v1, v2, v3, v4, v5, tr, it, cc, ip⟩ with
    | error e => rfl
    | ok customCmds =>
      cases getTransactionCommands s ⟨v1, v2, v3, v4, v5, tr, it, cc, ip⟩ with
      | error e => rfl
      | ok transCmds =>
        cases ip with
        | false => rfl
        | true => rfl
